import Mathlib

set_option maxHeartbeats 1000000

namespace SalesAgent

/-! Shallow embedding of the credential store, OAuth refresh engine and
workflow dispatcher of the sales-agent repository
(src/utils/supabase_client.py, src/utils/auth.py, src/utils/helpers.py,
src/sales_automation/agent.py).  Network and database effects are passed
in explicitly: a database query outcome is an `Except` carrying either the
raised exception or the returned rows, and an outbound HTTP refresh call
is an `Except` carrying either the raised network exception or the
provider's HTTP response. -/

/-- Row of the oauth_connections table (OAuthConnection in
utils/data_models.py, as stored and read by utils/supabase_client.py).
Timestamps are integer instants (seconds). -/
structure OAuthConnection where
  user_id : String
  provider : String
  provider_email : String
  access_token : String
  refresh_token : String
  token_expires_at : Int
  is_active : Bool
  created_at : Int
  updated_at : Int
deriving DecidableEq

/-- Python truthiness of an optional string: None and "" are falsy. -/
def pyTruthy : Option String → Bool
  | none => false
  | some s => !(s == "")

/-- The oauth_connections table. -/
abbrev ConnTable := List OAuthConnection

/-- Server-side filter of SupabaseClient.get_oauth_connection:
rows matching user_id, provider and is_active = True. -/
def queryActive (table : ConnTable) (uid prov : String) : List OAuthConnection :=
  table.filter (fun r => r.user_id == uid && r.provider == prov && r.is_active)

/-- SupabaseClient.get_oauth_connection (supabase_client.py lines 68-104).
`dbResult` is the outcome of the filtered select: either the raised
storage exception or the returned rows.  On success the first row is
converted; on an exception the method logs and returns None. -/
def get_oauth_connection (dbResult : Except String (List OAuthConnection)) :
    Option OAuthConnection :=
  match dbResult with
  | .error _ => none
  | .ok rows => rows.head?

/-- SupabaseClient.get_user_oauth_connections (supabase_client.py lines
30-66).  `dbResult` is the outcome of the select filtered on user_id and
is_active = True; on an exception the method logs and returns []. -/
def get_user_oauth_connections (dbResult : Except String (List OAuthConnection)) :
    List OAuthConnection :=
  match dbResult with
  | .error _ => []
  | .ok rows => rows

/-- Successful-path read of one connection: the select succeeds and
returns the matching rows of the table. -/
def lookupConnection (table : ConnTable) (uid prov : String) : Option OAuthConnection :=
  get_oauth_connection (Except.ok (queryActive table uid prov))

/-- The row transformation applied by the UPDATE statement of
SupabaseClient.update_oauth_tokens to the rows matching user_id and
provider (no is_active filter): sets access_token, token_expires_at =
now + expires_in and updated_at = now, and sets refresh_token only when
the passed refresh token is truthy. -/
def updateRow (uid prov access : String) (refreshTok : Option String)
    (expires_in now : Int) (r : OAuthConnection) : OAuthConnection :=
  if r.user_id == uid && r.provider == prov then
    { r with
      access_token := access
      refresh_token := if pyTruthy refreshTok then refreshTok.getD r.refresh_token
                       else r.refresh_token
      token_expires_at := now + expires_in
      updated_at := now }
  else r

/-- SupabaseClient.update_oauth_tokens (supabase_client.py lines 106-138)
on its successful path: updates every row matching (user_id, provider)
and returns True exactly when the UPDATE matched at least one row
(len(response.data) > 0). -/
def update_oauth_tokens (table : ConnTable) (uid prov access : String)
    (refreshTok : Option String) (expires_in now : Int) : Bool × ConnTable :=
  (table.any (fun r => r.user_id == uid && r.provider == prov),
   table.map (updateRow uid prov access refreshTok expires_in now))

/-- SupabaseClient.create_oauth_connection (supabase_client.py lines
154-173).  `dbOk` tells whether the INSERT statement succeeded; on
success the new row is appended to the table and True is returned
(the INSERT returns the inserted row, so len(response.data) > 0); on a
storage exception the method logs and returns False. -/
def create_oauth_connection (table : ConnTable) (c : OAuthConnection)
    (dbOk : Bool) : Bool × ConnTable :=
  if dbOk then (true, table ++ [c]) else (false, table)

/-- Number of active rows of the table for one (user, provider) key. -/
def activeRowCount (table : ConnTable) (uid prov : String) : Nat :=
  table.countP (fun r => r.user_id == uid && r.provider == prov && r.is_active)

/-- JSON body of a provider token response, keeping only the fields the
code reads: access_token, refresh_token, expires_in. -/
structure TokenRespBody where
  access_token : Option String
  refresh_token : Option String
  expires_in : Option Int
deriving DecidableEq

/-- HTTP response of a provider token endpoint. -/
structure HttpResponse where
  status_code : Nat
  body : TokenRespBody
deriving DecidableEq

/-- Value returned by a successful refresh (the dict built at
auth.py lines 56-62 and 111-117). -/
structure TokenData where
  access_token : String
  refresh_token : String
  expires_in : Int
deriving DecidableEq

/-- Common body of OAuthManager.refresh_gmail_token (auth.py lines 27-71)
and OAuthManager.refresh_airtable_token (auth.py lines 73-126), which
differ only in endpoint, header shape and the provider string passed to
update_oauth_tokens.  `resp` is the outcome of the POST to the token
endpoint: a raised network exception or the HTTP response.  On a non-200
status, or a 200 body missing the access_token key (the subscript raises
KeyError, caught by the surrounding except), None is returned and the
table is untouched.  On a 200 body with access_token, the store is
updated; the token data is returned only if the update reported
success. -/
def refreshWithProvider (provName : String) (table : ConnTable)
    (uid refreshTok : String) (resp : Except String HttpResponse) (now : Int) :
    Option TokenData × ConnTable :=
  match resp with
  | .error _ => (none, table)
  | .ok r =>
    if r.status_code == 200 then
      match r.body.access_token with
      | none => (none, table)
      | some newAccess =>
        let newRefresh := r.body.refresh_token.getD refreshTok
        let expiresIn := r.body.expires_in.getD 3600
        let upd := update_oauth_tokens table uid provName newAccess
          (some newRefresh) expiresIn now
        if upd.1 then
          (some ⟨newAccess, newRefresh, expiresIn⟩, upd.2)
        else (none, upd.2)
    else (none, table)

/-- OAuthManager.refresh_gmail_token (auth.py lines 27-71). -/
def refresh_gmail_token (table : ConnTable) (uid refreshTok : String)
    (resp : Except String HttpResponse) (now : Int) :
    Option TokenData × ConnTable :=
  refreshWithProvider "gmail" table uid refreshTok resp now

/-- OAuthManager.refresh_airtable_token (auth.py lines 73-126). -/
def refresh_airtable_token (table : ConnTable) (uid refreshTok : String)
    (resp : Except String HttpResponse) (now : Int) :
    Option TokenData × ConnTable :=
  refreshWithProvider "airtable" table uid refreshTok resp now

/-- A refresh attempt that fails before touching the store: a network
exception during the POST, a non-2xx status, or a 200 body with no
access_token field. -/
def refreshRespFails (resp : Except String HttpResponse) : Bool :=
  match resp with
  | .error _ => true
  | .ok r => !(r.status_code == 200) || r.body.access_token.isNone

/-- The provider if/elif/else chain of get_valid_token (auth.py lines
142-152): Gmail and Airtable get their refresh strategy; an unknown
provider is logged and yields None with no outbound call. -/
def dispatchRefresh (table : ConnTable) (uid prov refreshTok : String)
    (resp : Except String HttpResponse) (now : Int) :
    Option TokenData × ConnTable :=
  if prov == "gmail" then refresh_gmail_token table uid refreshTok resp now
  else if prov == "airtable" then refresh_airtable_token table uid refreshTok resp now
  else (none, table)

/-- OAuthManager.get_valid_token (auth.py lines 128-162).  Returns the
token result together with the table after the call.  `resp` is the
outcome of the outbound refresh POST, used only if the refresh path is
taken. -/
def get_valid_token (table : ConnTable) (uid prov : String)
    (resp : Except String HttpResponse) (now : Int) :
    Option String × ConnTable :=
  match get_oauth_connection (Except.ok (queryActive table uid prov)) with
  | none => (none, table)
  | some conn =>
    if now ≥ conn.token_expires_at then
      match (dispatchRefresh table uid prov conn.refresh_token resp now).1 with
      | some td =>
        (some td.access_token, (dispatchRefresh table uid prov conn.refresh_token resp now).2)
      | none => (none, (dispatchRefresh table uid prov conn.refresh_token resp now).2)
    else (some conn.access_token, table)

/-! Interleaving model for concurrent get_valid_token calls.  One call for
a fixed (user, provider) key is split at its await points into two
atomic phases, exactly the phases of auth.py lines 128-162: (1) fetch the
connection from the store (line 130); (2) compare now against the stored
expiry and, when expired, perform the provider refresh POST together with
its store update, then return (lines 137-162).  Phase 2 is kept atomic:
coarser atomicity only removes interleavings, so any behaviour exhibited
here is a behaviour of the code.  A global counter records every outbound
POST to a provider token endpoint. -/

/-- Control state of one in-flight get_valid_token call. -/
inductive CallPhase where
  | start
  | haveConn (c : OAuthConnection)
  | done (result : Option String)
deriving DecidableEq

/-- Whether a call has returned. -/
def CallPhase.isDone : CallPhase → Bool
  | .done _ => true
  | _ => false

/-- Shared state of N concurrent get_valid_token calls: the store table,
the number of outbound refresh POSTs issued so far, and each call's
control state. -/
structure ConcState where
  table : ConnTable
  refreshCalls : Nat
  threads : List CallPhase
deriving DecidableEq

/-- One scheduler step: run the next atomic phase of call `i`.  A call at
`start` performs the store fetch; a call holding a connection performs the
expiry comparison and, if expired and the provider is known, the refresh
POST (counted) with its store update; otherwise it returns the stored
token.  Steps on a finished call (or an out-of-range index) do nothing. -/
def concStep (uid prov : String) (resp : Except String HttpResponse) (now : Int)
    (s : ConcState) (i : Nat) : ConcState :=
  match s.threads.get? i with
  | none => s
  | some .start =>
    match lookupConnection s.table uid prov with
    | none => { s with threads := s.threads.set i (.done none) }
    | some c => { s with threads := s.threads.set i (.haveConn c) }
  | some (.haveConn c) =>
    if now ≥ c.token_expires_at then
      if prov == "gmail" || prov == "airtable" then
        let res :=
          if prov == "gmail" then
            refresh_gmail_token s.table uid c.refresh_token resp now
          else refresh_airtable_token s.table uid c.refresh_token resp now
        { table := res.2
          refreshCalls := s.refreshCalls + 1
          threads := s.threads.set i (.done (res.1.map TokenData.access_token)) }
      else { s with threads := s.threads.set i (.done none) }
    else { s with threads := s.threads.set i (.done (some c.access_token)) }
  | some (.done _) => s

/-- Run a schedule (a list of call indices) from a state. -/
def concRun (uid prov : String) (resp : Except String HttpResponse) (now : Int)
    (s : ConcState) (schedule : List Nat) : ConcState :=
  schedule.foldl (concStep uid prov resp now) s

/-- Initial state of N concurrent get_valid_token calls over a table. -/
def concInit (table : ConnTable) (n : Nat) : ConcState :=
  { table := table, refreshCalls := 0, threads := List.replicate n .start }

/-! Session manager (agent.py lines 194-227) over google.adk's
InMemorySessionService, whose per-user sessions are kept in creation
order and listed in that order. -/

/-- A stored session. -/
structure Session where
  id : Nat
  user_id : String
deriving DecidableEq

/-- State of the in-memory session service: a fresh-id counter and all
sessions in creation order. -/
structure SessionStore where
  nextId : Nat
  sessions : List Session
deriving DecidableEq

/-- session_service.list_sessions: the user's sessions, creation order. -/
def list_sessions (store : SessionStore) (uid : String) : List Session :=
  store.sessions.filter (fun s => s.user_id == uid)

/-- session_service.create_session: appends a fresh session for the user
and returns it. -/
def create_session (store : SessionStore) (uid : String) :
    Session × SessionStore :=
  let s : Session := { id := store.nextId, user_id := uid }
  (s, { nextId := store.nextId + 1, sessions := store.sessions ++ [s] })

/-- SalesAutomationOrchestrator._get_or_create_session (agent.py lines
194-227), normal path: list the user's sessions; if any exist return the
last one (list_response.sessions[-1]); otherwise create one. -/
def get_or_create_session (store : SessionStore) (uid : String) :
    Session × SessionStore :=
  match (list_sessions store uid).getLast? with
  | some s => (s, store)
  | none => create_session store uid

/-! Workflow dispatcher (agent.py).  The LLM agent invocation behind
_run_agent_with_prompt is an external effect, passed in as an
`Except String String`: either the exception raised inside the handler's
try block or the agent's response text.  Each handler additionally
reports whether the agent (and so any provider such as Gmail) was
invoked at all. -/

/-- AgentResponse (utils/data_models.py): success flag, message, count of
leads processed, error list.  The free-form `data` payload is returned
separately where a claim needs it. -/
structure AgentResponse where
  success : Bool
  message : String
  leads_processed : Option Int
  errors : Option (List String)
deriving DecidableEq

/-- Task parameters read by the handlers out of the parsed task_info
dict; a `none` field is an absent key. -/
structure TaskInfo where
  industry : Option String
  location : Option String
  min_employees : Option Int
  num_companies : Option Int
  send_emails : Option Bool
deriving DecidableEq

/-- Per-provider credentials entry built by
OAuthManager.get_user_credentials. -/
structure ProviderCreds where
  access_token : String
  refresh_token : String
  provider_email : String
deriving DecidableEq

/-- Credential map handed to the handlers: optional Gmail and Airtable
entries. -/
structure Credentials where
  gmail : Option ProviderCreds
  airtable : Option ProviderCreds
deriving DecidableEq

/-- SalesAutomationOrchestrator._handle_multiple_tasks (agent.py lines
318-345).  `step` abstracts _handle_single_task at the fixed task_info,
user and credentials of the dispatch.  Returns the aggregate response
together with the per-step results list (the data payload
task_results). -/
def handle_multiple_tasks (tasks : List String) (step : String → AgentResponse) :
    AgentResponse × List AgentResponse :=
  let results := tasks.map step
  let errors := results.foldl
    (fun acc r => if r.success then acc else acc ++ r.errors.getD []) []
  let total_leads := results.foldl (fun acc r => acc + r.leads_processed.getD 0) 0
  let success_count := results.countP (fun r => r.success)
  ({ success := success_count == tasks.length
     message := "Completed " ++ toString success_count ++ "/" ++
       toString tasks.length ++ " tasks successfully. Processed " ++
       toString total_leads ++ " leads total."
     leads_processed := some total_leads
     errors := if errors.isEmpty then none else some errors },
   results)

/-- SalesAutomationOrchestrator._handle_prospecting (agent.py lines
347-398).  Requires an Airtable credential; builds the company-search
query from the optional industry/location/min_employees parameters and
the requested company count (default 5); then runs the agent.  The
second component records whether the agent was invoked. -/
def handle_prospecting (task : TaskInfo) (creds : Credentials)
    (agent : Except String String) : AgentResponse × Bool :=
  match creds.airtable with
  | none =>
    ({ success := false
       message := "Airtable connection required for prospecting. Please connect your Airtable account."
       leads_processed := none
       errors := some ["No Airtable credentials"] }, false)
  | some _ =>
    let query_parts :=
      (if pyTruthy task.industry then ["in " ++ task.industry.getD ""] else []) ++
      (if pyTruthy task.location then ["located in " ++ task.location.getD ""] else []) ++
      (match task.min_employees with
       | some m => if m == 0 then [] else ["with " ++ toString m ++ "+ employees"]
       | none => [])
    let num_companies := task.num_companies.getD 5
    let _query := "Find " ++ toString num_companies ++ " companies " ++
      String.intercalate " " query_parts
    match agent with
    | .error e =>
      ({ success := false
         message := "Prospecting failed: " ++ e
         leads_processed := none
         errors := some [e] }, true)
    | .ok response =>
      ({ success := true
         message := response
         leads_processed := some num_companies
         errors := none }, true)

/-- SalesAutomationOrchestrator._handle_personalization (agent.py lines
481-528).  Requires Airtable; when the descriptor requests sending
(send_emails, default False) it also requires Gmail, failing before any
agent or Gmail call otherwise.  The second component records whether the
agent was invoked. -/
def handle_personalization (task : TaskInfo) (creds : Credentials)
    (agent : Except String String) : AgentResponse × Bool :=
  match creds.airtable with
  | none =>
    ({ success := false
       message := "Airtable connection required for personalization."
       leads_processed := none
       errors := some ["No Airtable credentials"] }, false)
  | some _ =>
    let send_emails := (task.send_emails.getD false)
    if send_emails && creds.gmail.isNone then
      ({ success := false
         message := "Gmail connection required for sending emails."
         leads_processed := none
         errors := some ["No Gmail credentials"] }, false)
    else
      match agent with
      | .error e =>
        ({ success := false
           message := "Personalization failed: " ++ e
           leads_processed := none
           errors := some [e] }, true)
      | .ok response =>
        ({ success := true
           message := response
           leads_processed := none
           errors := none }, true)

/-! Lead scoring (utils/helpers.py lines 284-341). -/

/-- Whether one character list starts with another. -/
def charsStartWith : List Char → List Char → Bool
  | [], _ => true
  | _ :: _, [] => false
  | a :: as, b :: bs => a == b && charsStartWith as bs

/-- Whether `needle` occurs contiguously inside `hay`. -/
def charsHaveSub (needle : List Char) : List Char → Bool
  | [] => needle.isEmpty
  | b :: bs => charsStartWith needle (b :: bs) || charsHaveSub needle bs

/-- Python's substring containment test `needle in hay`. -/
def strHasSub (needle hay : String) : Bool :=
  charsHaveSub needle.toList hay.toList

/-- Python str.lower, character by character. -/
def pyLower (s : String) : String :=
  String.mk (s.toList.map Char.toLower)

/-- Lead fields read by score_lead_against_icp out of the lead dict. -/
structure Lead where
  industry : Option String
  company_size : Option String
  background : Option String
deriving DecidableEq

/-- ICP fields read by score_lead_against_icp out of the icp dict.  An
absent or None list key and an empty list are both falsy in Python and
are used identically here, so both are modelled as []. -/
structure ICP where
  target_industries : List String
  company_size_range : Option String
  use_cases : List String
  pain_points : List String
deriving DecidableEq

/-- Result dict of score_lead_against_icp: the "score" key holds the
Hot/Warm/Cold rating string, "numerical_score" the 0-10 number. -/
structure ScoreResult where
  score : String
  numerical_score : Nat
  reasoning : String
deriving DecidableEq

/-- Guard of the industry block: lead.get("industry") and
icp.get("target_industries") both truthy. -/
def industryGuard (lead : Lead) (icp : ICP) : Bool :=
  pyTruthy lead.industry && !icp.target_industries.isEmpty

/-- Industry hit: some lowercased target industry occurs in the
lowercased lead industry. -/
def industryHit (lead : Lead) (icp : ICP) : Bool :=
  icp.target_industries.any
    (fun t => strHasSub (pyLower t) (pyLower (lead.industry.getD "")))

/-- Guard of the company-size block. -/
def sizeGuard (lead : Lead) (icp : ICP) : Bool :=
  pyTruthy lead.company_size && pyTruthy icp.company_size_range

/-- Size hit: the lowercased ICP size range occurs in the lowercased
lead company size. -/
def sizeHit (lead : Lead) (icp : ICP) : Bool :=
  strHasSub (pyLower (icp.company_size_range.getD ""))
    (pyLower (lead.company_size.getD ""))

/-- Guard of the use-case block. -/
def useCaseGuard (lead : Lead) (icp : ICP) : Bool :=
  pyTruthy lead.background && !icp.use_cases.isEmpty

/-- Use-case hit: some lowercased use case occurs in the lowercased
background. -/
def useCaseHit (lead : Lead) (icp : ICP) : Bool :=
  icp.use_cases.any
    (fun uc => strHasSub (pyLower uc) (pyLower (lead.background.getD "")))

/-- Guard of the pain-point block. -/
def painGuard (lead : Lead) (icp : ICP) : Bool :=
  pyTruthy lead.background && !icp.pain_points.isEmpty

/-- Pain-point hit: some lowercased pain point occurs in the lowercased
background. -/
def painHit (lead : Lead) (icp : ICP) : Bool :=
  icp.pain_points.any
    (fun pp => strHasSub (pyLower pp) (pyLower (lead.background.getD "")))

/-- score_lead_against_icp (helpers.py lines 284-341): sequentially
accumulates industry (+3), company size (+3 on hit, +1 otherwise when
the guard holds), use case (+2) and pain point (+2) contributions with
their reasoning lines, then rates Hot when the score reaches 8, Warm
when it reaches 5, Cold otherwise. -/
def score_lead_against_icp (lead : Lead) (icp : ICP) : ScoreResult :=
  let s0 : Nat := 0
  let r0 : List String := []
  let s1 := if industryGuard lead icp then
      (if industryHit lead icp then s0 + 3 else s0) else s0
  let r1 := if industryGuard lead icp then
      (if industryHit lead icp then
        r0 ++ ["Industry match: " ++ lead.industry.getD ""]
      else r0 ++ ["Industry mismatch: " ++ lead.industry.getD "" ++ " not in targets"])
    else r0
  let s2 := if sizeGuard lead icp then
      (if sizeHit lead icp then s1 + 3 else s1 + 1) else s1
  let r2 := if sizeGuard lead icp then
      (if sizeHit lead icp then
        r1 ++ ["Company size match: " ++ lead.company_size.getD ""]
      else r1 ++ ["Partial company size match: " ++ lead.company_size.getD ""])
    else r1
  let s3 := if useCaseGuard lead icp then
      (if useCaseHit lead icp then s2 + 2 else s2) else s2
  let r3 := if useCaseGuard lead icp then
      (if useCaseHit lead icp then
        r2 ++ ["Use case alignment found in company background"] else r2)
    else r2
  let s4 := if painGuard lead icp then
      (if painHit lead icp then s3 + 2 else s3) else s3
  let r4 := if painGuard lead icp then
      (if painHit lead icp then
        r3 ++ ["Pain point alignment found in company background"] else r3)
    else r3
  { score := if s4 ≥ 8 then "Hot" else if s4 ≥ 5 then "Warm" else "Cold"
    numerical_score := s4
    reasoning := if r4.isEmpty then "Limited data for scoring"
                 else String.intercalate "; " r4 }

/-- Industry contribution of the score. -/
def industryPts (lead : Lead) (icp : ICP) : Nat :=
  if industryGuard lead icp then (if industryHit lead icp then 3 else 0) else 0

/-- Company-size contribution of the score. -/
def sizePts (lead : Lead) (icp : ICP) : Nat :=
  if sizeGuard lead icp then (if sizeHit lead icp then 3 else 1) else 0

/-- Use-case contribution of the score. -/
def useCasePts (lead : Lead) (icp : ICP) : Nat :=
  if useCaseGuard lead icp then (if useCaseHit lead icp then 2 else 0) else 0

/-- Pain-point contribution of the score. -/
def painPts (lead : Lead) (icp : ICP) : Nat :=
  if painGuard lead icp then (if painHit lead icp then 2 else 0) else 0

/-! Concrete fixtures used by counterexamples and witnesses. -/

/-- An expired active Gmail connection for user u1 (expiry 50). -/
def c1conn : OAuthConnection :=
  ⟨"u1", "gmail", "u@x.com", "oldA", "oldR", 50, true, 0, 0⟩

/-- A successful provider token response carrying a new access token. -/
def respOk : Except String HttpResponse :=
  Except.ok ⟨200, ⟨some "newA", none, some 3600⟩⟩

/-- A rejected provider token response (HTTP 500). -/
def resp500 : Except String HttpResponse :=
  Except.ok ⟨500, ⟨none, none, none⟩⟩

/-- A credential map with Airtable only. -/
def credsAir : Credentials := ⟨none, some ⟨"atok", "artok", "a@x.com"⟩⟩

/-- A task_info asking for email sending. -/
def taskSend : TaskInfo := ⟨none, none, none, none, some true⟩

/-- A prospecting task_info asking for 7 companies. -/
def taskProspect : TaskInfo := ⟨some "SaaS", none, none, some 7, none⟩

/-- A two-step dispatch in which qualify fails and personalize succeeds
processing 3 leads. -/
def stepQualPers : String → AgentResponse := fun t =>
  if t == "qualify" then
    ⟨false, "Qualification failed: boom", none, some ["Qualification error"]⟩
  else ⟨true, "personalized", some 3, none⟩

/-- A lead whose industry, size bucket and background line up with
exICP. -/
def exLead : Lead :=
  ⟨some "Fintech", some "11-50 employees",
   some "We struggle with manual data entry and need automation"⟩

/-- An ICP targeting exLead's industry, size bucket, use case and pain
point. -/
def exICP : ICP :=
  ⟨["Fintech"], some "11-50 employees", ["automation"], ["manual data entry"]⟩

/-- An empty session store. -/
def sessStore0 : SessionStore := ⟨0, []⟩

/-- A second active Gmail connection for user u1, inserted on top of
c1conn. -/
def c5row2 : OAuthConnection :=
  ⟨"u1", "gmail", "u@x.com", "newA", "newR", 5000, true, 1, 1⟩

/-! Helper lemmas. -/

theorem charsStartWith_self (l : List Char) : charsStartWith l l = true := by
  induction l with
  | nil => rfl
  | cons a as ih => simp [charsStartWith, ih]

theorem charsHaveSub_self (l : List Char) : charsHaveSub l l = true := by
  cases l with
  | nil => rfl
  | cons b bs => simp [charsHaveSub, charsStartWith_self]

theorem strHasSub_self (s : String) : strHasSub s s = true := by
  simp [strHasSub, charsHaveSub_self]

/-- updateRow never changes the key fields of a row. -/
theorem updateRow_keeps_key (uid prov a : String) (rt : Option String)
    (e n : Int) (r : OAuthConnection) :
    (updateRow uid prov a rt e n r).user_id = r.user_id ∧
    (updateRow uid prov a rt e n r).provider = r.provider ∧
    (updateRow uid prov a rt e n r).is_active = r.is_active := by
  unfold updateRow
  split <;> simp

/-- Reading one connection after the UPDATE of update_oauth_tokens sees
the updated image of the connection read before. -/
theorem lookupConnection_map_updateRow (table : ConnTable) (uid prov a : String)
    (rt : Option String) (e n : Int) :
    lookupConnection (table.map (updateRow uid prov a rt e n)) uid prov
      = (lookupConnection table uid prov).map (updateRow uid prov a rt e n) := by
  induction table with
  | nil => rfl
  | cons r t ih =>
    unfold lookupConnection get_oauth_connection queryActive at ih ⊢
    obtain ⟨h1, h2, h3⟩ := updateRow_keeps_key uid prov a rt e n r
    by_cases hkey : (r.user_id == uid && r.provider == prov && r.is_active) = true
    · simp only [List.map_cons, List.filter_cons, h1, h2, h3, hkey, if_pos]
      simp
    · simp only [List.map_cons, List.filter_cons, h1, h2, h3]
      rw [if_neg hkey, if_neg hkey]
      exact ih

/-- A connection found by lookupConnection satisfies the key filter. -/
theorem lookupConnection_key (table : ConnTable) (uid prov : String)
    (c : OAuthConnection) (h : lookupConnection table uid prov = some c) :
    (c.user_id == uid && c.provider == prov && c.is_active) = true := by
  unfold lookupConnection get_oauth_connection queryActive at h
  simp only at h
  cases hf : List.filter
      (fun r => r.user_id == uid && r.provider == prov && r.is_active) table with
  | nil => rw [hf] at h; simp at h
  | cons x xs =>
    rw [hf] at h
    simp only [List.head?_cons, Option.some.injEq] at h
    subst h
    have hx : x ∈ List.filter
        (fun r => r.user_id == uid && r.provider == prov && r.is_active) table := by
      rw [hf]
      exact List.mem_cons_self x xs
    exact (List.mem_filter.mp hx).2

/-! Claim theorems. -/

/-- Claim C3 (confirmed): every failing refresh attempt — network error,
non-2xx provider response, or 200 body missing the access_token field —
returns None to its caller and leaves the stored connections (access
token, refresh token, expiry) unchanged, for both the Gmail and the
Airtable refresh path. -/
theorem c3_failed_refresh_preserves_store (table : ConnTable)
    (uid refreshTok : String) (resp : Except String HttpResponse) (now : Int)
    (hfail : refreshRespFails resp = true) :
    refresh_gmail_token table uid refreshTok resp now = (none, table) ∧
    refresh_airtable_token table uid refreshTok resp now = (none, table) := by
  cases resp with
  | error e => exact ⟨rfl, rfl⟩
  | ok r =>
    unfold refresh_gmail_token refresh_airtable_token refreshWithProvider
    by_cases hs : (r.status_code == 200) = true
    · have hn : r.body.access_token = none := by
        simp only [refreshRespFails, hs, Bool.not_true, Bool.false_or] at hfail
        exact Option.isNone_iff_eq_none.mp hfail
      simp [hs, hn]
    · simp [hs]

/-- Witness for C3 at a concrete rejected response. -/
theorem c3_failed_refresh_preserves_store_witness :
    refresh_gmail_token [c1conn] "u1" "oldR" resp500 100 = (none, [c1conn]) ∧
    refresh_airtable_token [c1conn] "u1" "oldR" resp500 100 = (none, [c1conn]) :=
  c3_failed_refresh_preserves_store [c1conn] "u1" "oldR" resp500 100 (by decide)

/-- Counterexample to claim C4: a storage-layer error during a
credential-store read is not surfaced as an error value at all — the
exception is caught and the caller receives exactly the result an empty
table would give, None for a single-connection get and [] for a user's
connection list. -/
theorem c4_counterexample :
    get_oauth_connection (Except.error "database unreachable")
      = get_oauth_connection (Except.ok []) ∧
    get_user_oauth_connections (Except.error "database unreachable")
      = get_user_oauth_connections (Except.ok []) :=
  ⟨rfl, rfl⟩

/-- Claim C4 (corrected): every storage-layer error during a
credential-store read is caught, logged and converted into the
no-connection result — None for get_oauth_connection and the empty list
for get_user_oauth_connections; no StorageError reaches the caller. -/
theorem c4_storage_error_swallowed (e : String) :
    get_oauth_connection (Except.error e) = none ∧
    get_user_oauth_connections (Except.error e) = [] :=
  ⟨rfl, rfl⟩

/-- Counterexample to claim C5: a put of a second active connection for
(u1, gmail) on a table already holding an active (u1, gmail) row leaves
both rows active — the prior row is not deactivated. -/
theorem c5_counterexample :
    activeRowCount (create_oauth_connection [c1conn] c5row2 true).2 "u1" "gmail"
      = 2 := by
  decide

/-- Claim C5 (corrected): create_oauth_connection only inserts — the new
row is appended and every pre-existing row is kept unchanged, so a put
of an active connection raises the number of active rows for its
(user, provider) key by one instead of deactivating the prior active
row; the at-most-one-active invariant is not enforced. -/
theorem c5_create_no_deactivation (table : ConnTable) (c : OAuthConnection) :
    create_oauth_connection table c true = (true, table ++ [c]) ∧
    ∀ uid prov,
      activeRowCount (create_oauth_connection table c true).2 uid prov
        = activeRowCount table uid prov +
          (if (c.user_id == uid && c.provider == prov && c.is_active) = true
           then 1 else 0) := by
  refine ⟨rfl, fun uid prov => ?_⟩
  simp [create_oauth_connection, activeRowCount, List.countP_append,
    List.countP_cons]

/-- Claim C7 (confirmed): a personalize dispatch requesting email sending
while the credential map has no Gmail entry fails before any agent or
Gmail call: success is false, the error is a missing-credential error
(No Gmail credentials, or No Airtable credentials when Airtable is
missing as well), and the agent is never invoked. -/
theorem c7_personalize_missing_gmail (task : TaskInfo) (creds : Credentials)
    (agent : Except String String)
    (hsend : task.send_emails.getD false = true)
    (hG : creds.gmail = none) :
    (handle_personalization task creds agent).1.success = false ∧
    ((handle_personalization task creds agent).1.errors
        = some ["No Gmail credentials"] ∨
     (handle_personalization task creds agent).1.errors
        = some ["No Airtable credentials"]) ∧
    (handle_personalization task creds agent).2 = false := by
  unfold handle_personalization
  cases hAt : creds.airtable with
  | none => simp
  | some a => simp [hsend, hG]

/-- Witness for C7: send_emails true, Airtable connected, Gmail absent. -/
theorem c7_personalize_missing_gmail_witness :
    (handle_personalization taskSend credsAir (Except.ok "never ran")).1.success
      = false ∧
    ((handle_personalization taskSend credsAir (Except.ok "never ran")).1.errors
        = some ["No Gmail credentials"] ∨
     (handle_personalization taskSend credsAir (Except.ok "never ran")).1.errors
        = some ["No Airtable credentials"]) ∧
    (handle_personalization taskSend credsAir (Except.ok "never ran")).2 = false :=
  c7_personalize_missing_gmail taskSend credsAir (Except.ok "never ran") rfl rfl

/-- Claim C10 (confirmed): a prospecting dispatch with an Airtable entry
in the credential map whose agent invocation raises no exception reports
success with leads_processed equal to the requested company count
(default 5 when absent), whatever text the agent returned — the count
does not reflect leads actually found or stored. -/
theorem c10_prospecting_reports_requested_count (task : TaskInfo)
    (creds : Credentials) (a : ProviderCreds) (r : String)
    (hA : creds.airtable = some a) :
    (handle_prospecting task creds (Except.ok r)).1.success = true ∧
    (handle_prospecting task creds (Except.ok r)).1.leads_processed
      = some (task.num_companies.getD 5) ∧
    (handle_prospecting task creds (Except.ok r)).1.message = r ∧
    (handle_prospecting task creds (Except.ok r)).2 = true := by
  simp [handle_prospecting, hA]

/-- Witness for C10: Airtable connected, agent returns text, 7 companies
requested. -/
theorem c10_prospecting_reports_requested_count_witness :
    (handle_prospecting taskProspect credsAir (Except.ok "found some")).1.success
      = true ∧
    (handle_prospecting taskProspect credsAir
        (Except.ok "found some")).1.leads_processed = some 7 ∧
    (handle_prospecting taskProspect credsAir (Except.ok "found some")).1.message
      = "found some" ∧
    (handle_prospecting taskProspect credsAir (Except.ok "found some")).2 = true :=
  c10_prospecting_reports_requested_count taskProspect credsAir
    ⟨"atok", "artok", "a@x.com"⟩ "found some" rfl

/-- Claim C9 (confirmed): requesting a session for a user with zero prior
sessions creates exactly one new session (the store grows by exactly that
session) and returns it; a second request for the same user returns the
same session — the most recently created one — and changes nothing. -/
theorem c9_get_or_create_session (store : SessionStore) (uid : String)
    (h : list_sessions store uid = []) :
    (get_or_create_session store uid).1.user_id = uid ∧
    (get_or_create_session store uid).2.sessions
      = store.sessions ++ [(get_or_create_session store uid).1] ∧
    list_sessions (get_or_create_session store uid).2 uid
      = [(get_or_create_session store uid).1] ∧
    get_or_create_session (get_or_create_session store uid).2 uid
      = get_or_create_session store uid := by
  have hfirst : get_or_create_session store uid
      = ({ id := store.nextId, user_id := uid },
         { nextId := store.nextId + 1,
           sessions := store.sessions ++ [{ id := store.nextId, user_id := uid }] }) := by
    unfold get_or_create_session
    rw [h]
    rfl
  have hlist : list_sessions (get_or_create_session store uid).2 uid
      = [(get_or_create_session store uid).1] := by
    rw [hfirst]
    unfold list_sessions at h ⊢
    simp [List.filter_append, h]
  have hsecond : ∀ (st : SessionStore) (s : Session),
      list_sessions st uid = [s] → get_or_create_session st uid = (s, st) := by
    intro st s hs
    unfold get_or_create_session
    rw [hs]
    rfl
  refine ⟨by rw [hfirst], by rw [hfirst], hlist, ?_⟩
  rw [hsecond _ _ hlist]

/-- Witness for C9 at the empty session store. -/
theorem c9_get_or_create_session_witness :
    (get_or_create_session sessStore0 "u1").1.user_id = "u1" ∧
    (get_or_create_session sessStore0 "u1").2.sessions
      = sessStore0.sessions ++ [(get_or_create_session sessStore0 "u1").1] ∧
    list_sessions (get_or_create_session sessStore0 "u1").2 "u1"
      = [(get_or_create_session sessStore0 "u1").1] ∧
    get_or_create_session (get_or_create_session sessStore0 "u1").2 "u1"
      = get_or_create_session sessStore0 "u1" :=
  c9_get_or_create_session sessStore0 "u1" rfl

theorem foldl_leads_eq_sum (rs : List AgentResponse) (acc : Int) :
    rs.foldl (fun a r => a + r.leads_processed.getD 0) acc
      = acc + (rs.map (fun r => r.leads_processed.getD 0)).sum := by
  induction rs generalizing acc with
  | nil => simp
  | cons r t ih => simp [List.foldl_cons, ih, add_assoc]

theorem foldl_errors_eq_flat (rs : List AgentResponse) (acc : List String)
    (h : ∀ r ∈ rs, r.success = true → r.errors = none) :
    rs.foldl (fun a r => if r.success then a else a ++ r.errors.getD []) acc
      = acc ++ (rs.map (fun r => r.errors.getD [])).flatten := by
  induction rs generalizing acc with
  | nil => simp
  | cons r t ih =>
    have ht : ∀ x ∈ t, x.success = true → x.errors = none :=
      fun x hx => h x (List.mem_cons_of_mem _ hx)
    by_cases hrs : r.success = true
    · have hre : r.errors = none := h r (List.mem_cons_self r t) hrs
      simp [hrs, hre, ih _ ht]
    · simp [hrs, ih _ ht, List.append_assoc]

/-- Claim C6 (confirmed): a multi-task dispatch runs every named step, in
the given order, a failing step aborting nothing (the per-step result
list is exactly the steps mapped over the task list); the aggregate
succeeds iff every step succeeded; the message states how many of the
total tasks succeeded; leads_processed is the sum of the steps' counts;
and — since a successful _handle_single_task result never carries
errors, the hypothesis here — the error list is the concatenation of the
steps' error lists, None when that concatenation is empty. -/
theorem c6_multi_task_aggregation (tasks : List String)
    (step : String → AgentResponse)
    (hstep : ∀ t, (step t).success = true → (step t).errors = none) :
    (handle_multiple_tasks tasks step).2 = tasks.map step ∧
    ((handle_multiple_tasks tasks step).1.success = true ↔
       ∀ t ∈ tasks, (step t).success = true) ∧
    (handle_multiple_tasks tasks step).1.leads_processed
      = some ((tasks.map (fun t => (step t).leads_processed.getD 0)).sum) ∧
    (handle_multiple_tasks tasks step).1.message
      = "Completed " ++ toString (tasks.countP (fun t => (step t).success)) ++ "/"
        ++ toString tasks.length ++ " tasks successfully. Processed "
        ++ toString ((tasks.map (fun t => (step t).leads_processed.getD 0)).sum)
        ++ " leads total." ∧
    (handle_multiple_tasks tasks step).1.errors
      = (if (tasks.map (fun t => (step t).errors.getD [])).flatten = [] then none
         else some ((tasks.map (fun t => (step t).errors.getD [])).flatten)) := by
  have hcnt : (tasks.map step).countP (fun r => r.success)
      = tasks.countP (fun t => (step t).success) := by
    rw [List.countP_map]
    rfl
  have hsum : (tasks.map step).foldl (fun acc r => acc + r.leads_processed.getD 0) 0
      = (tasks.map (fun t => (step t).leads_processed.getD 0)).sum := by
    rw [foldl_leads_eq_sum, List.map_map]
    exact zero_add _
  have herr : (tasks.map step).foldl
        (fun acc r => if r.success then acc else acc ++ r.errors.getD []) []
      = (tasks.map (fun t => (step t).errors.getD [])).flatten := by
    rw [foldl_errors_eq_flat _ _ (by
      intro r hr hs
      obtain ⟨t, _, rfl⟩ := List.mem_map.mp hr
      exact hstep t hs), List.map_map]
    rfl
  refine ⟨rfl, ?_, ?_, ?_, ?_⟩
  · show ((tasks.map step).countP (fun r => r.success) == tasks.length) = true ↔ _
    rw [beq_iff_eq,
      show tasks.length = (tasks.map step).length from (List.length_map _ _).symm,
      List.countP_eq_length]
    constructor
    · intro hall t ht
      exact hall (step t) (List.mem_map_of_mem step ht)
    · intro hall r hr
      obtain ⟨t, ht, rfl⟩ := List.mem_map.mp hr
      exact hall t ht
  · show some ((tasks.map step).foldl (fun acc r => acc + r.leads_processed.getD 0) 0)
        = _
    rw [hsum]
  · show "Completed " ++ toString ((tasks.map step).countP (fun r => r.success))
        ++ "/" ++ toString tasks.length ++ " tasks successfully. Processed "
        ++ toString ((tasks.map step).foldl
             (fun acc r => acc + r.leads_processed.getD 0) 0)
        ++ " leads total." = _
    rw [hcnt, hsum]
  · show (if ((tasks.map step).foldl
          (fun acc r => if r.success then acc else acc ++ r.errors.getD [])
          []).isEmpty = true then none else some _) = _
    rw [herr]
    by_cases hemp : (tasks.map (fun t => (step t).errors.getD [])).flatten = []
    · simp [hemp]
    · simp [hemp, List.isEmpty_iff]

/-- Witness for C6, the spec's own example: qualify fails and personalize
succeeds with 3 leads, so the aggregate fails, counts 3 leads, carries
qualify's errors and reports 1/2 tasks. -/
theorem c6_multi_task_aggregation_witness :
    (handle_multiple_tasks ["qualify", "personalize"] stepQualPers).1.leads_processed
      = some 3 ∧
    (handle_multiple_tasks ["qualify", "personalize"] stepQualPers).1.errors
      = some ["Qualification error"] ∧
    (handle_multiple_tasks ["qualify", "personalize"] stepQualPers).1.success
      = false ∧
    (handle_multiple_tasks ["qualify", "personalize"] stepQualPers).1.message
      = "Completed 1/2 tasks successfully. Processed 3 leads total." := by
  obtain ⟨hres, hsucc, hleads, hmsg, herr⟩ :=
    c6_multi_task_aggregation ["qualify", "personalize"] stepQualPers (by
      intro t ht
      unfold stepQualPers at ht ⊢
      by_cases hq : (t == "qualify") = true
      · rw [if_pos hq] at ht
        cases ht
      · rw [if_neg hq])
  refine ⟨?_, ?_, ?_, ?_⟩
  · rw [hleads]
    decide
  · rw [herr]
    decide
  · refine Bool.eq_false_iff.mpr ?_
    rw [Ne, hsucc]
    decide
  · rw [hmsg]
    decide

/-- The sequentially accumulated score equals the sum of its four
component contributions. -/
theorem score_decomp (lead : Lead) (icp : ICP) :
    (score_lead_against_icp lead icp).numerical_score
      = industryPts lead icp + sizePts lead icp + useCasePts lead icp
        + painPts lead icp := by
  unfold score_lead_against_icp industryPts sizePts useCasePts painPts
  split_ifs <;> simp

/-- The rating is computed from the numeric score by thresholds. -/
theorem score_rating (lead : Lead) (icp : ICP) :
    (score_lead_against_icp lead icp).score
      = (if 8 ≤ (score_lead_against_icp lead icp).numerical_score then "Hot"
         else if 5 ≤ (score_lead_against_icp lead icp).numerical_score then "Warm"
         else "Cold") := rfl

theorem rating_iffs (n : Nat) :
    ((if 8 ≤ n then "Hot" else if 5 ≤ n then "Warm" else "Cold") = "Hot" ↔ 8 ≤ n) ∧
    ((if 8 ≤ n then "Hot" else if 5 ≤ n then "Warm" else "Cold") = "Warm" ↔
      (5 ≤ n ∧ n ≤ 7)) ∧
    ((if 8 ≤ n then "Hot" else if 5 ≤ n then "Warm" else "Cold") = "Cold" ↔
      n ≤ 4) := by
  by_cases h8 : 8 ≤ n <;> by_cases h5 : 5 ≤ n <;>
    refine ⟨?_, ?_, ?_⟩ <;> simp [h8, h5] <;> omega

theorem industryPts_le (lead : Lead) (icp : ICP) : industryPts lead icp ≤ 3 := by
  unfold industryPts
  split_ifs <;> omega

theorem sizePts_le (lead : Lead) (icp : ICP) : sizePts lead icp ≤ 3 := by
  unfold sizePts
  split_ifs <;> omega

theorem useCasePts_le (lead : Lead) (icp : ICP) : useCasePts lead icp ≤ 2 := by
  unfold useCasePts
  split_ifs <;> omega

theorem painPts_le (lead : Lead) (icp : ICP) : painPts lead icp ≤ 2 := by
  unfold painPts
  split_ifs <;> omega

/-- Claim C8 (confirmed): the numeric score decomposes into component
contributions bounded by industry 3, size 3, use case 2, pain point 2,
and the rating follows the thresholds Hot at 8 and above, Warm from 5 to
7, Cold at 4 and below; moreover a lead whose industry is exactly one of
the ICP's target industries, whose company size bucket is exactly the
ICP's size range, and whose background contains one listed use case and
one listed pain point scores 10 and rates Hot. -/
theorem c8_score_lead_against_icp :
    (∀ lead icp,
      (score_lead_against_icp lead icp).numerical_score
        = industryPts lead icp + sizePts lead icp + useCasePts lead icp
          + painPts lead icp ∧
      industryPts lead icp ≤ 3 ∧ sizePts lead icp ≤ 3 ∧
      useCasePts lead icp ≤ 2 ∧ painPts lead icp ≤ 2 ∧
      ((score_lead_against_icp lead icp).score = "Hot" ↔
        8 ≤ (score_lead_against_icp lead icp).numerical_score) ∧
      ((score_lead_against_icp lead icp).score = "Warm" ↔
        (5 ≤ (score_lead_against_icp lead icp).numerical_score ∧
         (score_lead_against_icp lead icp).numerical_score ≤ 7)) ∧
      ((score_lead_against_icp lead icp).score = "Cold" ↔
        (score_lead_against_icp lead icp).numerical_score ≤ 4)) ∧
    (∀ lead icp t sz bg uc pp,
      lead.industry = some t → t ∈ icp.target_industries → t ≠ "" →
      lead.company_size = some sz → icp.company_size_range = some sz → sz ≠ "" →
      lead.background = some bg → bg ≠ "" →
      uc ∈ icp.use_cases → strHasSub (pyLower uc) (pyLower bg) = true →
      pp ∈ icp.pain_points → strHasSub (pyLower pp) (pyLower bg) = true →
      (score_lead_against_icp lead icp).numerical_score = 10 ∧
      (score_lead_against_icp lead icp).score = "Hot") := by
  constructor
  · intro lead icp
    obtain ⟨hh, hw, hc⟩ := rating_iffs (score_lead_against_icp lead icp).numerical_score
    rw [← score_rating] at hh hw hc
    exact ⟨score_decomp lead icp, industryPts_le lead icp, sizePts_le lead icp,
      useCasePts_le lead icp, painPts_le lead icp, hh, hw, hc⟩
  · intro lead icp t sz bg uc pp hind htmem ht0 hsz hszr hsz0 hbg hbg0
      hucmem hucsub hppmem hppsub
    have g1 : industryGuard lead icp = true := by
      simp [industryGuard, pyTruthy, hind, List.isEmpty_iff]
      exact ⟨ht0, List.ne_nil_of_mem htmem⟩
    have h1 : industryHit lead icp = true := by
      unfold industryHit
      rw [hind, List.any_eq_true]
      exact ⟨t, htmem, by simpa using strHasSub_self (pyLower t)⟩
    have g2 : sizeGuard lead icp = true := by
      simp [sizeGuard, pyTruthy, hsz, hszr]
      exact hsz0
    have h2 : sizeHit lead icp = true := by
      unfold sizeHit
      rw [hsz, hszr]
      simpa using strHasSub_self (pyLower sz)
    have g3 : useCaseGuard lead icp = true := by
      simp [useCaseGuard, pyTruthy, hbg, List.isEmpty_iff]
      exact ⟨hbg0, List.ne_nil_of_mem hucmem⟩
    have h3 : useCaseHit lead icp = true := by
      unfold useCaseHit
      rw [hbg, List.any_eq_true]
      exact ⟨uc, hucmem, by simpa using hucsub⟩
    have g4 : painGuard lead icp = true := by
      simp [painGuard, pyTruthy, hbg, List.isEmpty_iff]
      exact ⟨hbg0, List.ne_nil_of_mem hppmem⟩
    have h4 : painHit lead icp = true := by
      unfold painHit
      rw [hbg, List.any_eq_true]
      exact ⟨pp, hppmem, by simpa using hppsub⟩
    have hn : (score_lead_against_icp lead icp).numerical_score = 10 := by
      rw [score_decomp]
      simp [industryPts, sizePts, useCasePts, painPts, g1, h1, g2, h2, g3, h3,
        g4, h4]
    refine ⟨hn, ?_⟩
    rw [score_rating, hn]
    simp

/-- Witness for C8 at a concrete matching lead and ICP. -/
theorem c8_score_lead_against_icp_witness :
    (score_lead_against_icp exLead exICP).numerical_score = 10 ∧
    (score_lead_against_icp exLead exICP).score = "Hot" :=
  c8_score_lead_against_icp.2 exLead exICP "Fintech" "11-50 employees"
    "We struggle with manual data entry and need automation"
    "automation" "manual data entry"
    rfl (by decide) (by decide) rfl rfl (by decide) rfl (by decide)
    (by decide) (by decide) (by decide) (by decide)

/-- A successful refresh comes from a 200 response and leaves the table
updated through updateRow with the returned token data. -/
theorem refreshWithProvider_some_elim (provName : String) (table : ConnTable)
    (uid refreshTok : String) (resp : Except String HttpResponse) (now : Int)
    (td : TokenData) (t2 : ConnTable)
    (h : refreshWithProvider provName table uid refreshTok resp now = (some td, t2)) :
    ∃ r, resp = Except.ok r ∧
      td.expires_in = r.body.expires_in.getD 3600 ∧
      t2 = table.map (updateRow uid provName td.access_token
             (some td.refresh_token) td.expires_in now) := by
  cases resp with
  | error e => simp [refreshWithProvider] at h
  | ok r =>
    refine ⟨r, rfl, ?_⟩
    simp only [refreshWithProvider] at h
    by_cases hs : (r.status_code == 200) = true
    · rw [if_pos hs] at h
      cases hac : r.body.access_token with
      | none =>
        rw [hac] at h
        simp at h
      | some a =>
        simp only [hac, update_oauth_tokens] at h
        by_cases hu :
            (table.any (fun r => r.user_id == uid && r.provider == provName)) = true
        · rw [if_pos hu, Prod.mk.injEq] at h
          obtain ⟨h1, h2⟩ := h
          rw [Option.some.injEq] at h1
          subst h1
          exact ⟨rfl, h2.symm⟩
        · rw [if_neg hu] at h
          simp at h
    · rw [if_neg hs] at h
      simp at h

/-- A successful dispatchRefresh pins the provider to Gmail or Airtable
and behaves as refreshWithProvider for it. -/
theorem dispatchRefresh_some_elim (table : ConnTable)
    (uid prov refreshTok : String) (resp : Except String HttpResponse) (now : Int)
    (td : TokenData) (t2 : ConnTable)
    (h : dispatchRefresh table uid prov refreshTok resp now = (some td, t2)) :
    (prov = "gmail" ∨ prov = "airtable") ∧
    ∃ r, resp = Except.ok r ∧
      td.expires_in = r.body.expires_in.getD 3600 ∧
      t2 = table.map (updateRow uid prov td.access_token
             (some td.refresh_token) td.expires_in now) := by
  unfold dispatchRefresh at h
  by_cases hg : (prov == "gmail") = true
  · have hpe : prov = "gmail" := eq_of_beq hg
    subst hpe
    rw [if_pos hg] at h
    exact ⟨Or.inl rfl, refreshWithProvider_some_elim _ _ _ _ _ _ _ _ h⟩
  · by_cases ha : (prov == "airtable") = true
    · have hpe : prov = "airtable" := eq_of_beq ha
      subst hpe
      rw [if_neg hg, if_pos ha] at h
      exact ⟨Or.inr rfl, refreshWithProvider_some_elim _ _ _ _ _ _ _ _ h⟩
    · rw [if_neg hg, if_neg ha] at h
      simp at h

/-- get_valid_token when no active connection exists. -/
theorem get_valid_token_none (table : ConnTable) (uid prov : String)
    (resp : Except String HttpResponse) (now : Int)
    (h : lookupConnection table uid prov = none) :
    get_valid_token table uid prov resp now = (none, table) := by
  unfold get_valid_token
  unfold lookupConnection at h
  rw [h]

/-- get_valid_token when the stored expiry is strictly in the future. -/
theorem get_valid_token_fresh (table : ConnTable) (uid prov : String)
    (resp : Except String HttpResponse) (now : Int) (c : OAuthConnection)
    (h : lookupConnection table uid prov = some c)
    (hex : now < c.token_expires_at) :
    get_valid_token table uid prov resp now = (some c.access_token, table) := by
  unfold get_valid_token
  unfold lookupConnection at h
  simp only [h]
  rw [if_neg (not_le.mpr hex)]

/-- get_valid_token when the stored token is expired. -/
theorem get_valid_token_expired (table : ConnTable) (uid prov : String)
    (resp : Except String HttpResponse) (now : Int) (c : OAuthConnection)
    (h : lookupConnection table uid prov = some c)
    (hex : c.token_expires_at ≤ now) :
    get_valid_token table uid prov resp now
      = (match (dispatchRefresh table uid prov c.refresh_token resp now).1 with
         | some td =>
           (some td.access_token,
            (dispatchRefresh table uid prov c.refresh_token resp now).2)
         | none =>
           (none, (dispatchRefresh table uid prov c.refresh_token resp now).2)) := by
  unfold get_valid_token
  unfold lookupConnection at h
  simp only [h]
  rw [if_pos hex]

/-- updateRow on a row matching the key installs the new access token and
the expiry now + expires_in. -/
theorem updateRow_applies (uid prov a : String) (rt : Option String) (e n : Int)
    (c : OAuthConnection)
    (h : (c.user_id == uid && c.provider == prov && c.is_active) = true) :
    (updateRow uid prov a rt e n c).access_token = a ∧
    (updateRow uid prov a rt e n c).token_expires_at = n + e := by
  simp only [Bool.and_eq_true] at h
  unfold updateRow
  rw [if_pos (by
    simp only [Bool.and_eq_true]
    exact ⟨h.1.1, h.1.2⟩)]
  exact ⟨rfl, rfl⟩

/-- Claim C2 (confirmed): get_valid_token never returns a token whose
stored expiry is in the past at the moment of return (given the provider
reports a non-negative token lifetime): whenever a token is returned,
the stored active connection after the call carries that token with an
expiry at or after now; when the stored expiry is strictly in the future
the stored token is returned, the table unchanged, the response oracle
irrelevant (no network call); and when now has reached the expiry a
token comes back only through a successful provider refresh. -/
theorem c2_get_valid_token_never_stale (table : ConnTable) (uid prov : String)
    (resp : Except String HttpResponse) (now : Int)
    (hexp : ∀ r, resp = Except.ok r → 0 ≤ r.body.expires_in.getD 3600) :
    (∀ tok, (get_valid_token table uid prov resp now).1 = some tok →
      ∃ c, lookupConnection (get_valid_token table uid prov resp now).2 uid prov
            = some c ∧
        c.access_token = tok ∧ now ≤ c.token_expires_at) ∧
    (∀ c, lookupConnection table uid prov = some c →
      now < c.token_expires_at →
      get_valid_token table uid prov resp now = (some c.access_token, table) ∧
      ∀ resp2, get_valid_token table uid prov resp2 now
        = get_valid_token table uid prov resp now) ∧
    (∀ c, lookupConnection table uid prov = some c →
      c.token_expires_at ≤ now →
      ∀ tok, (get_valid_token table uid prov resp now).1 = some tok →
        (prov = "gmail" ∨ prov = "airtable") ∧
        ∃ td, dispatchRefresh table uid prov c.refresh_token resp now
              = (some td, (get_valid_token table uid prov resp now).2) ∧
          tok = td.access_token) := by
  refine ⟨?_, ?_, ?_⟩
  · intro tok htok
    cases hlk : lookupConnection table uid prov with
    | none =>
      rw [get_valid_token_none table uid prov resp now hlk] at htok
      cases htok
    | some c =>
      have hkey := lookupConnection_key table uid prov c hlk
      by_cases hex : c.token_expires_at ≤ now
      · rw [get_valid_token_expired table uid prov resp now c hlk hex] at htok
        cases hD : (dispatchRefresh table uid prov c.refresh_token resp now).1 with
        | none =>
          rw [hD] at htok
          cases htok
        | some td =>
          rw [hD] at htok
          simp only [Option.some.injEq] at htok
          have hDfull : dispatchRefresh table uid prov c.refresh_token resp now
              = (some td, (dispatchRefresh table uid prov c.refresh_token resp now).2) := by
            rw [← hD]
          obtain ⟨-, r, hr, he, ht2⟩ :=
            dispatchRefresh_some_elim table uid prov c.refresh_token resp now td _ hDfull
          have hgvt2 : (get_valid_token table uid prov resp now).2
              = (dispatchRefresh table uid prov c.refresh_token resp now).2 := by
            rw [get_valid_token_expired table uid prov resp now c hlk hex, hD]
          refine ⟨updateRow uid prov td.access_token (some td.refresh_token)
            td.expires_in now c, ?_, ?_, ?_⟩
          · rw [hgvt2, ht2, lookupConnection_map_updateRow, hlk]
            rfl
          · rw [(updateRow_applies uid prov td.access_token (some td.refresh_token)
              td.expires_in now c hkey).1, htok]
          · rw [(updateRow_applies uid prov td.access_token (some td.refresh_token)
              td.expires_in now c hkey).2]
            have := hexp r hr
            rw [← he] at this
            omega
      · rw [not_le] at hex
        rw [get_valid_token_fresh table uid prov resp now c hlk hex] at htok
        simp only [Option.some.injEq] at htok
        refine ⟨c, ?_, htok, by omega⟩
        rw [get_valid_token_fresh table uid prov resp now c hlk hex]
        exact hlk
  · intro c hlk hex
    refine ⟨get_valid_token_fresh table uid prov resp now c hlk hex, fun resp2 => ?_⟩
    rw [get_valid_token_fresh table uid prov resp now c hlk hex,
      get_valid_token_fresh table uid prov resp2 now c hlk hex]
  · intro c hlk hex tok htok
    rw [get_valid_token_expired table uid prov resp now c hlk hex] at htok
    cases hD : (dispatchRefresh table uid prov c.refresh_token resp now).1 with
    | none =>
      rw [hD] at htok
      cases htok
    | some td =>
      rw [hD] at htok
      simp only [Option.some.injEq] at htok
      have hDfull : dispatchRefresh table uid prov c.refresh_token resp now
          = (some td, (dispatchRefresh table uid prov c.refresh_token resp now).2) := by
        rw [← hD]
      obtain ⟨hprov, -⟩ :=
        dispatchRefresh_some_elim table uid prov c.refresh_token resp now td _ hDfull
      have hgvt2 : (get_valid_token table uid prov resp now).2
          = (dispatchRefresh table uid prov c.refresh_token resp now).2 := by
        rw [get_valid_token_expired table uid prov resp now c hlk hex, hD]
      exact ⟨hprov, td, by rw [hgvt2]; exact hDfull, htok.symm⟩

/-- Witness for C2: a fresh connection is returned as stored; the same
expired connection refreshed through a 200 response is returned with the
updated stored expiry. -/
theorem c2_get_valid_token_never_stale_witness :
    (∀ tok, (get_valid_token [c1conn] "u1" "gmail" respOk 100).1 = some tok →
      ∃ c, lookupConnection (get_valid_token [c1conn] "u1" "gmail" respOk 100).2
            "u1" "gmail" = some c ∧
        c.access_token = tok ∧ (100 : Int) ≤ c.token_expires_at) ∧
    (get_valid_token [c1conn] "u1" "gmail" respOk 100).1 = some "newA" :=
  ⟨(c2_get_valid_token_never_stale [c1conn] "u1" "gmail" respOk 100
      (by intro r hr; cases hr; decide)).1,
   by decide⟩

/-- Faithfulness of the interleaving model: one call run to completion in
isolation computes exactly get_valid_token — same final table, and the
call finishes with get_valid_token's result. -/
theorem concRun_single_call_eq_get_valid_token (table : ConnTable)
    (uid prov : String) (resp : Except String HttpResponse) (now : Int) :
    (concRun uid prov resp now (concInit table 1) [0, 0]).table
      = (get_valid_token table uid prov resp now).2 ∧
    (concRun uid prov resp now (concInit table 1) [0, 0]).threads
      = [.done (get_valid_token table uid prov resp now).1] := by
  cases hlk : lookupConnection table uid prov with
  | none =>
    rw [get_valid_token_none table uid prov resp now hlk]
    simp [concRun, concStep, concInit, hlk]
  | some c =>
    by_cases hex : c.token_expires_at ≤ now
    · rw [get_valid_token_expired table uid prov resp now c hlk hex]
      by_cases hg : (prov == "gmail") = true
      · have hD : dispatchRefresh table uid prov c.refresh_token resp now
            = refresh_gmail_token table uid c.refresh_token resp now := by
          unfold dispatchRefresh
          rw [if_pos hg]
        rw [hD]
        cases hres : (refresh_gmail_token table uid c.refresh_token resp now).1 <;>
          simp [concRun, concStep, concInit, hlk, hex, hg, hres]
      · by_cases ha : (prov == "airtable") = true
        · have hD : dispatchRefresh table uid prov c.refresh_token resp now
              = refresh_airtable_token table uid c.refresh_token resp now := by
            unfold dispatchRefresh
            rw [if_neg hg, if_pos ha]
          rw [hD]
          cases hres :
              (refresh_airtable_token table uid c.refresh_token resp now).1 <;>
            simp [concRun, concStep, concInit, hlk, hex, hg, ha, hres]
        · have hD : dispatchRefresh table uid prov c.refresh_token resp now
              = (none, table) := by
            unfold dispatchRefresh
            rw [if_neg hg, if_neg ha]
          rw [hD]
          simp [concRun, concStep, concInit, hlk, hex, hg, ha]
    · rw [get_valid_token_fresh table uid prov resp now c hlk (by omega)]
      simp [concRun, concStep, concInit, hlk, hex]

/-- Counterexample to claim C1: two concurrent get_valid_token calls for
the same expired (u1, gmail) connection, interleaved so that both fetch
the stored connection before either refreshes, both run to completion
and issue 2 outbound refresh calls, not exactly one. -/
theorem c1_counterexample :
    (concRun "u1" "gmail" respOk 100 (concInit [c1conn] 2) [0, 1, 0, 1]).refreshCalls
      = 2 ∧
    (∀ pc ∈ (concRun "u1" "gmail" respOk 100
        (concInit [c1conn] 2) [0, 1, 0, 1]).threads, pc.isDone = true) ∧
    ¬ (concRun "u1" "gmail" respOk 100
        (concInit [c1conn] 2) [0, 1, 0, 1]).refreshCalls = 1 := by
  decide

/-- Claim C1 (corrected): there is no single-flight guard — for every
store holding an expired active connection for a (user, provider) key
with a known provider, two concurrent get_valid_token calls that both
read the connection before either refresh completes each issue their own
outbound refresh call (2 in total), and neither blocks: both calls run
to completion. -/
theorem c1_no_single_flight (table : ConnTable) (uid prov : String)
    (resp : Except String HttpResponse) (now : Int) (c : OAuthConnection)
    (hlk : lookupConnection table uid prov = some c)
    (hex : c.token_expires_at ≤ now)
    (hp : prov = "gmail" ∨ prov = "airtable") :
    (concRun uid prov resp now (concInit table 2) [0, 1, 0, 1]).refreshCalls = 2 ∧
    ∀ pc ∈ (concRun uid prov resp now (concInit table 2) [0, 1, 0, 1]).threads,
      pc.isDone = true := by
  have hpk : (prov == "gmail" || prov == "airtable") = true := by
    rcases hp with h | h <;> subst h <;> rfl
  have e1 : concStep uid prov resp now (concInit table 2) 0
      = { table := table, refreshCalls := 0,
          threads := [.haveConn c, .start] } := by
    simp [concStep, concInit, hlk]
  have e2 : concStep uid prov resp now
      { table := table, refreshCalls := 0, threads := [.haveConn c, .start] } 1
      = { table := table, refreshCalls := 0,
          threads := [.haveConn c, .haveConn c] } := by
    simp [concStep, hlk]
  have e3 : concStep uid prov resp now
      { table := table, refreshCalls := 0,
        threads := [.haveConn c, .haveConn c] } 0
      = { table := (if prov == "gmail" then
              refresh_gmail_token table uid c.refresh_token resp now
            else refresh_airtable_token table uid c.refresh_token resp now).2,
          refreshCalls := 1,
          threads := [.done ((if prov == "gmail" then
              refresh_gmail_token table uid c.refresh_token resp now
            else refresh_airtable_token table uid c.refresh_token resp now).1.map
              TokenData.access_token), .haveConn c] } := by
    simp [concStep, hex, hpk]
  unfold concRun
  simp only [List.foldl]
  rw [e1, e2, e3]
  simp [concStep, hex, hpk, CallPhase.isDone]

/-- Witness for the corrected C1 at the concrete expired connection. -/
theorem c1_no_single_flight_witness :
    (concRun "u1" "gmail" respOk 100 (concInit [c1conn] 2) [0, 1, 0, 1]).refreshCalls
      = 2 ∧
    ∀ pc ∈ (concRun "u1" "gmail" respOk 100
        (concInit [c1conn] 2) [0, 1, 0, 1]).threads, pc.isDone = true :=
  c1_no_single_flight [c1conn] "u1" "gmail" respOk 100 c1conn
    (by decide) (by decide) (Or.inl rfl)

end SalesAgent
